import Mathlib

/-!
Verification development for the Expressive Code engine
(`src/packages/@expressive-code/core/src/common/engine.ts`).

The engine's constructor resolves a raw configuration into a fully resolved,
read-only configuration object, migrates the deprecated `theme` option,
runs an optional `customizeTheme` callback and a color-contrast pass over the
theme list, and resolves one style variant per theme.  Its accessor methods
`getBaseStyles` and `getThemeStyles` emit CSS stylesheets, wrapping the
concatenated blocks in an optional cascade layer.

Functions that live in modules outside the provided source tree
(`internal/css`, `internal/core-styles`, `internal/style-resolving`,
`style-variants`, the built-in shiki themes, the core plugin list) are
modelled from the spec: where the spec fixes their behavior we define them
concretely, and where it does not (CSS minification, style resolution) they
are fields of the `Externals` record so that every theorem holds for an
arbitrary implementation.

Strings use `\x7b` / `\x7d` escapes for literal braces and `\x27` for
literal apostrophes.
-/

set_option autoImplicit false

namespace ExpressiveCode

/-- Theme type, `'dark' | 'light'` in the source. -/
inductive ThemeType where
  | dark
  | light
deriving DecidableEq, Repr

/-- Renders a `ThemeType` the way JavaScript template literals render the
`type` string (`${theme.type}`). -/
def themeTypeStr : ThemeType → String
  | ThemeType.dark => "dark"
  | ThemeType.light => "light"

/-- An `ExpressiveCodeTheme`: identity (`name`, `type`) plus a palette of
named colors.  The contrast pass mutates only the colors. -/
structure Theme where
  name : String
  type : ThemeType
  colors : List (String × String)
deriving DecidableEq, Repr

/-- A resolved style variant: one theme together with its ordered mapping of
CSS variable declarations (a JS `Map<string, string>`, modelled as an
insertion-ordered association list with unique keys). -/
structure StyleVariant where
  theme : Theme
  cssVarDeclarations : List (String × String)
deriving DecidableEq, Repr

/-- Style overrides tree, opaque to the claims; modelled as a flat list of
path/value pairs. -/
def StyleOverrides := List (String × String)

/-- A plugin, reduced to the parts the engine reads: its name, its base style
contribution (the function-or-static union resolved to its final string value,
`none` when the plugin declares no base styles), and its JS modules. -/
structure Plugin where
  name : String
  baseStyles : Option String
  jsModules : List String

/-- A named plugin style block, as assembled by `getBaseStyles`. -/
structure PluginStyles where
  pluginName : String
  styles : String

/-- The raw constructor configuration (`ExpressiveCodeEngineConfig`).
`none` means the option was not supplied.  For `themeCssSelector`,
`some none` models an explicit `false` and `some (some f)` a selector
function. -/
structure EngineConfig where
  themes : Option (List Theme) := none
  minSyntaxHighlightingColorContrast : Option ℚ := none
  useDarkModeMediaQuery : Option Bool := none
  themeCssRoot : Option String := none
  themeCssSelector : Option (Option (Theme → List StyleVariant → Option String)) := none
  cascadeLayer : Option String := none
  useStyleReset : Option Bool := none
  customizeTheme : Option (Theme → Option Theme) := none
  useThemedScrollbars : Option Bool := none
  useThemedSelectionColors : Option Bool := none
  styleOverrides : Option StyleOverrides := none
  defaultLocale : Option String := none
  plugins : List Plugin := []
  theme : Option Theme := none

/-- The resolved engine (`ExpressiveCodeEngine`), holding the read-only
resolved configuration plus the resolved style variants.
`themeCssSelector = none` models the resolved value `false`; the selector
function returns `none` for `false` and receives the style variants as its
context argument. -/
structure Engine where
  themes : List Theme
  minSyntaxHighlightingColorContrast : ℚ
  useDarkModeMediaQuery : Bool
  themeCssRoot : String
  themeCssSelector : Option (Theme → List StyleVariant → Option String)
  cascadeLayer : String
  useStyleReset : Bool
  useThemedScrollbars : Bool
  useThemedSelectionColors : Bool
  styleOverrides : StyleOverrides
  styleVariants : List StyleVariant
  defaultLocale : String
  plugins : List Plugin

/-- Modelled from the spec: behavior of repository code that is not under
`src/` (modules `internal/css`, `internal/core-styles`,
`internal/style-resolving`, `style-variants`, `internal/core-plugins`).
The spec fixes no contract for these beyond their signatures, so all theorems
quantify over an arbitrary instance.
`resolveCodeBackground` models `resolveStyleSettings` followed by reading the
`codeBackground` setting through `getFirstStaticColor`;
`ensureMinContrastColors` models the in-place color mutation performed by
`theme.ensureMinSyntaxHighlightingColorContrast` (it rewrites only the
palette, never `name` or `type`). -/
structure Externals where
  scopeAndMinifyNestedCss : String → String
  processPluginStyles : List PluginStyles → List String
  getCoreThemeStyles : Nat → String
  getCoreBaseStyles : Bool → Bool → Bool → String
  resolveCodeBackground : Theme → Nat → List Plugin → StyleOverrides → Option String
  ensureMinContrastColors : Theme → ℚ → Option String → List (String × String)
  resolveStyleVariants : List Theme → StyleOverrides → List Plugin → List StyleVariant
  corePlugins : List Plugin

/-- Modelled from the spec: the built-in `github-dark` shiki theme (spec §6:
the default is "two built-in themes (one dark, one light)"). -/
def githubDark : Theme := { name := "github-dark", type := ThemeType.dark, colors := [] }

/-- Modelled from the spec: the built-in `github-light` shiki theme. -/
def githubLight : Theme := { name := "github-light", type := ThemeType.light, colors := [] }

/-- The default `themeCssSelector` function:
`(theme) => [data-theme=\x27${theme.name}\x27]`. -/
def defaultThemeCssSelector : Theme → List StyleVariant → Option String :=
  fun theme _ => some ("[data-theme=\x27" ++ theme.name ++ "\x27]")

/-- Engine constructor, lines 231-236: transfer the deprecated `theme` option
to `themes` (only when `theme` is set and `themes` is not), deleting the
`theme` property from the caller's configuration object in place. -/
def migrateConfig (config : EngineConfig) : EngineConfig :=
  match config.theme, config.themes with
  | some t, none => { config with themes := some [t], theme := none }
  | _, _ => config

/-- Engine constructor, line 237: the resolved theme list — a copy of
`config.themes` when given (after the deprecated-option migration), else the
two built-in default themes. -/
def resolveThemes (config : EngineConfig) : List Theme :=
  match (migrateConfig config).themes with
  | some l => l
  | none => [githubDark, githubLight]

/-- Engine constructor, line 239: the default for `useDarkModeMediaQuery` is
`themes.length === 2 && themes[0].type !== themes[1].type`. -/
def autoDarkModeDefault : List Theme → Bool
  | [t0, t1] => t0.type != t1.type
  | _ => false

/-- The `customizeTheme` step of the per-theme loop (line 256):
`theme = this.customizeTheme(theme) ?? theme` when a callback is configured. -/
def applyCustomizeTheme (customizeTheme : Option (Theme → Option Theme)) (theme : Theme) : Theme :=
  match customizeTheme with
  | some f => (f theme).getD theme
  | none => theme

/-- One iteration of the constructor's theme-processing loop
(lines 254-272): run `customizeTheme`, then, when the resolved minimum
contrast is positive, resolve the code background color and run the contrast
pass (which mutates only the theme's colors). -/
def processTheme (ext : Externals) (customizeTheme : Option (Theme → Option Theme))
    (minContrast : ℚ) (plugins : List Plugin) (styleOverrides : StyleOverrides)
    (styleVariantIndex : Nat) (theme : Theme) : Theme :=
  let theme := applyCustomizeTheme customizeTheme theme
  if 0 < minContrast then
    let codeBg := ext.resolveCodeBackground theme styleVariantIndex plugins styleOverrides
    { theme with colors := ext.ensureMinContrastColors theme minContrast codeBg }
  else theme

/-- The constructor's indexed map over the theme list
(`this.themes.map((theme, styleVariantIndex) => ...)`, lines 254-272). -/
def processThemes (ext : Externals) (customizeTheme : Option (Theme → Option Theme))
    (minContrast : ℚ) (plugins : List Plugin) (styleOverrides : StyleOverrides) :
    Nat → List Theme → List Theme
  | _, [] => []
  | i, theme :: rest =>
    processTheme ext customizeTheme minContrast plugins styleOverrides i theme ::
      processThemes ext customizeTheme minContrast plugins styleOverrides (i + 1) rest

/-- The result of running the engine constructor: the engine itself, the
caller-supplied configuration object as it looks after the constructor
returns (the deprecated-option migration mutates it in place), and every
diagnostic message emitted through the logger during construction. -/
structure ConstructorResult where
  engine : Engine
  finalConfig : EngineConfig
  diagnostics : List String

/-- The engine constructor (lines 230-281): deprecated-option migration,
option defaulting, theme customization and contrast pass, and style-variant
resolution.  The constructor body contains no logger call, so the diagnostics
list is empty. -/
def mkEngine (ext : Externals) (rawConfig : EngineConfig) : ConstructorResult :=
  let config := migrateConfig rawConfig
  let themes := resolveThemes rawConfig
  let minSyntaxHighlightingColorContrast := config.minSyntaxHighlightingColorContrast.getD 5.5
  let useDarkModeMediaQuery := config.useDarkModeMediaQuery.getD (autoDarkModeDefault themes)
  let themeCssRoot := config.themeCssRoot.getD ":root"
  let themeCssSelector := config.themeCssSelector.getD (some defaultThemeCssSelector)
  let cascadeLayer := config.cascadeLayer.getD ""
  let useStyleReset := config.useStyleReset.getD true
  let customizeTheme := config.customizeTheme
  let useThemedScrollbars := config.useThemedScrollbars.getD true
  let useThemedSelectionColors := config.useThemedSelectionColors.getD false
  let styleOverrides := config.styleOverrides.getD []
  let defaultLocale :=
    match config.defaultLocale with
    | some s => if s = "" then "en-US" else s
    | none => "en-US"
  let plugins := ext.corePlugins ++ config.plugins
  let themes :=
    processThemes ext customizeTheme minSyntaxHighlightingColorContrast plugins styleOverrides 0 themes
  let styleVariants := ext.resolveStyleVariants themes styleOverrides plugins
  { engine :=
      { themes := themes
        minSyntaxHighlightingColorContrast := minSyntaxHighlightingColorContrast
        useDarkModeMediaQuery := useDarkModeMediaQuery
        themeCssRoot := themeCssRoot
        themeCssSelector := themeCssSelector
        cascadeLayer := cascadeLayer
        useStyleReset := useStyleReset
        useThemedScrollbars := useThemedScrollbars
        useThemedSelectionColors := useThemedSelectionColors
        styleOverrides := styleOverrides
        styleVariants := styleVariants
        defaultLocale := defaultLocale
        plugins := plugins }
    finalConfig := config
    diagnostics := [] }

/-- Literal opening brace for generated CSS text. -/
def obr : String := "\x7b"

/-- Literal closing brace for generated CSS text. -/
def cbr : String := "\x7d"

/-- JavaScript `Array.prototype.join(sep)`. -/
def joinSep (sep : String) : List String → String
  | [] => ""
  | [s] => s
  | s :: rest => s ++ sep ++ joinSep sep (rest)

/-- JS string truthiness on a `string | false` value: `false` and the empty
string are falsy. -/
def truthyStr : Option String → Option String
  | some s => if s = "" then none else some s
  | none => none

/-- `this.themeCssSelector && this.themeCssSelector(theme, { styleVariants })`:
`none` when the resolved selector option is `false` or the function returns
`false`. -/
def callThemeCssSelector (e : Engine) (theme : Theme) : Option String :=
  match e.themeCssSelector with
  | none => none
  | some f => f theme e.styleVariants

/-- `getThemeStyles` line 374: render a declarations map as
`name:value` pairs joined by `;`. -/
def renderDeclarations (declarations : List (String × String)) : String :=
  joinSep ";" (declarations.map (fun p => p.1 ++ ":" ++ p.2))

/-- `getThemeStyles` line 380: the base theme's selector (or `false`). -/
def baseThemeSelectorOf (e : Engine) (base : StyleVariant) : Option String :=
  callThemeCssSelector e base.theme

/-- `getThemeStyles` line 381:
`baseThemeSelector ? :not(${baseThemeSelector}) : ""`. -/
def notBaseThemeSelectorOf (e : Engine) (base : StyleVariant) : String :=
  match truthyStr (baseThemeSelectorOf e base) with
  | some s => ":not(" ++ s ++ ")"
  | none => ""

/-- `getThemeStyles` line 382: the selector for code blocks carrying the base
theme selector while nested inside a root styled with an alternate theme. -/
def baseThemeBlockInsideAlternateThemeRootOf (e : Engine) (base : StyleVariant) : String :=
  if notBaseThemeSelectorOf e base = "" then ""
  else
    e.themeCssRoot ++ notBaseThemeSelectorOf e base ++ " &" ++
      (truthyStr (baseThemeSelectorOf e base)).getD ""

/-- One CSS rule of the nested-CSS template literals: selectors followed by a
braced body. -/
def cssRule (selectors body : String) : String :=
  "\n" ++ selectors ++ " " ++ obr ++ "\n" ++ body ++ "\n" ++ cbr ++ "\n"

/-- `getThemeStyles` lines 383-390: selectors for the base variable block. -/
def baseVarSelectorsOf (e : Engine) (base : StyleVariant) : String :=
  joinSep ","
    (([e.themeCssRoot, baseThemeBlockInsideAlternateThemeRootOf e base]).filter (fun s => s ≠ ""))

/-- `getThemeStyles` lines 391-398: selectors for the base core-style block. -/
def baseThemeStyleSelectorsOf (e : Engine) (base : StyleVariant) : String :=
  joinSep ","
    ((["&", baseThemeBlockInsideAlternateThemeRootOf e base]).filter (fun s => s ≠ ""))

/-- `getThemeStyles` lines 399-408: the nested CSS of the base theme block,
before scoping and minification. -/
def baseBlockCssText (ext : Externals) (e : Engine) (base : StyleVariant) : String :=
  cssRule (baseVarSelectorsOf e base) (renderDeclarations base.cssVarDeclarations) ++
    cssRule (baseThemeStyleSelectorsOf e base) (ext.getCoreThemeStyles 0)

/-- The base theme block as pushed onto `themeStyles` (lines 399-408). -/
def emittedBaseBlock (ext : Externals) (e : Engine) (base : StyleVariant) : String :=
  ext.scopeAndMinifyNestedCss (baseBlockCssText ext e base)

/-- One entry of the `alternateVariants` array (lines 411-428). -/
structure AltVariant where
  theme : Theme
  cssVars : String
  coreStyles : String

/-- JS `Map.get`: the value of the first (and, for a `Map`, only) binding of
a key, or `undefined` (`none`) when absent. -/
def mapGet (m : List (String × String)) (key : String) : Option String :=
  (m.find? (fun q => q.1 == key)).map Prod.snd

/-- `getThemeStyles` lines 416-421: the diff mapping for one alternate
variant — keep exactly the declarations whose value differs (JS `!==`) from
the base map's value for the same variable name (`Map.get`; absent keys
compare as `undefined` and therefore always differ). -/
def computeDiffVars (baseVars vars : List (String × String)) : List (String × String) :=
  vars.filter (fun p => mapGet baseVars p.1 != some p.2)

/-- `getThemeStyles` lines 411-428: build `alternateVariants` from the style
variants at index ≥ 1, keeping theme order and the 1-based style variant
index. -/
def mkAlternateVariants (ext : Externals) (baseVars : List (String × String)) :
    Nat → List StyleVariant → List AltVariant
  | _, [] => []
  | i, sv :: rest =>
    { theme := sv.theme
      cssVars := renderDeclarations (computeDiffVars baseVars sv.cssVarDeclarations)
      coreStyles := ext.getCoreThemeStyles i } ::
      mkAlternateVariants ext baseVars (i + 1) rest

/-- `getThemeStyles` line 434: the type opposite to the base theme's type
(`baseTheme.type === "dark" ? "light" : "dark"`). -/
def oppositeType : ThemeType → ThemeType
  | ThemeType.dark => ThemeType.light
  | ThemeType.light => ThemeType.dark

/-- `getThemeStyles` lines 437-443: the configuration error thrown when the
dark-mode media query was requested but no alternate theme of the opposite
type exists; it enumerates every configured theme as `name (type)`. -/
def mediaQueryErrorMessage (themes : List Theme) : String :=
  joinSep " "
    ["The config option \"useDarkModeMediaQuery: true\" requires at least",
     "one dark and one light theme, but the following themes were given:",
     joinSep ", " (themes.map (fun theme => theme.name ++ " (" ++ themeTypeStr theme.type ++ ")"))]

/-- `getThemeStyles` lines 444-453: the nested CSS of the
`prefers-color-scheme` media query block, before scoping and minification. -/
def darkModeMediaQueryCssText (e : Engine) (base : StyleVariant) (altType : ThemeType)
    (v : AltVariant) : String :=
  "\n@media (prefers-color-scheme: " ++ themeTypeStr altType ++ ") " ++ obr ++
    cssRule (e.themeCssRoot ++ notBaseThemeSelectorOf e base) v.cssVars ++
    cssRule (e.themeCssRoot ++ notBaseThemeSelectorOf e base ++ " &") v.coreStyles ++
    cbr ++ "\n"

/-- `getThemeStyles` lines 430-455: the optional dark-mode media query block.
Fails with the configuration error when the media query is enabled but no
alternate variant has the opposite theme type. -/
def mediaBlockResult (ext : Externals) (e : Engine) (base : StyleVariant)
    (alts : List StyleVariant) : Except String (List String) :=
  if e.useDarkModeMediaQuery then
    let altType := oppositeType base.theme.type
    match (mkAlternateVariants ext base.cssVarDeclarations 1 alts).find?
        (fun v => v.theme.type == altType) with
    | none => Except.error (mediaQueryErrorMessage e.themes)
    | some firstAltVariant =>
      Except.ok [ext.scopeAndMinifyNestedCss (darkModeMediaQueryCssText e base altType firstAltVariant)]
  else Except.ok []

/-- `getThemeStyles` lines 464-470: the nested CSS of one per-theme selector
block, before scoping and minification. -/
def perThemeCssText (e : Engine) (base : StyleVariant) (themeSelector : String)
    (v : AltVariant) : String :=
  cssRule
    (e.themeCssRoot ++ themeSelector ++ " &" ++ notBaseThemeSelectorOf e base ++ ", &" ++ themeSelector)
    (v.cssVars ++ ";\n" ++ v.coreStyles)

/-- `getThemeStyles` lines 457-472: per-theme selector blocks for the
alternate variants.  Skipped entirely when `themeCssSelector` is `false`;
variants whose selector evaluates to `false` or the empty string are
skipped. -/
def perThemeBlocksOf (ext : Externals) (e : Engine) (base : StyleVariant)
    (alts : List StyleVariant) : List String :=
  match e.themeCssSelector with
  | none => []
  | some _ =>
    (mkAlternateVariants ext base.cssVarDeclarations 1 alts).filterMap fun v =>
      match truthyStr (callThemeCssSelector e v.theme) with
      | none => none
      | some themeSelector =>
        some (ext.scopeAndMinifyNestedCss (perThemeCssText e base themeSelector v))

/-- The `themeStyles` fragment list of `getThemeStyles`, in push order: base
block, then the optional dark-mode media query block, then the per-theme
selector blocks. -/
def themeStylesCore (ext : Externals) (e : Engine) (base : StyleVariant)
    (alts : List StyleVariant) : Except String (List String) :=
  match mediaBlockResult ext e base alts with
  | Except.error msg => Except.error msg
  | Except.ok mediaBlocks =>
    Except.ok (emittedBaseBlock ext e base :: (mediaBlocks ++ perThemeBlocksOf ext e base alts))

/-- The fragment list of `getThemeStyles` for an engine.  An empty style
variant list makes the destructuring on line 377 throw a `TypeError`. -/
def getThemeStylesBlocks (ext : Externals) (e : Engine) : Except String (List String) :=
  match e.styleVariants with
  | [] => Except.error "TypeError: Cannot destructure property cssVarDeclarations of undefined"
  | base :: alts => themeStylesCore ext e base alts

/-- Modelled from the spec: `wrapInCascadeLayer` from `internal/css` is not
under `src/`.  Spec §4.5: if `layerName` is empty, returns `cssText`
unchanged; otherwise returns the text wrapped once in a named layer rule. -/
def wrapInCascadeLayer (cssText layerName : String) : String :=
  if layerName = "" then cssText
  else "@layer " ++ layerName ++ " " ++ obr ++ " " ++ cssText ++ " " ++ cbr

/-- `getThemeStyles` (lines 372-474): join the fragments and wrap them in the
configured cascade layer; a missing opposite-type theme surfaces as a thrown
error. -/
def getThemeStyles (ext : Externals) (e : Engine) : Except String String :=
  match getThemeStylesBlocks ext e with
  | Except.error msg => Except.error msg
  | Except.ok blocks => Except.ok (wrapInCascadeLayer (joinSep "" blocks) e.cascadeLayer)

/-- `getBaseStyles` lines 325-346: the collected plugin style blocks — the
core base styles first, then each plugin's resolved contribution, skipping
plugins without one (or whose resolved value is falsy). -/
def basePluginStyles (ext : Externals) (e : Engine) : List PluginStyles :=
  { pluginName := "core"
    styles := ext.getCoreBaseStyles e.useStyleReset e.useThemedScrollbars e.useThemedSelectionColors } ::
    e.plugins.filterMap fun plugin =>
      match plugin.baseStyles with
      | none => none
      | some s => if s = "" then none else some { pluginName := plugin.name, styles := s }

/-- `getBaseStyles` (lines 324-350): process the collected plugin styles and
wrap the joined result in the configured cascade layer. -/
def getBaseStyles (ext : Externals) (e : Engine) : String :=
  wrapInCascadeLayer (joinSep "" (ext.processPluginStyles (basePluginStyles ext e))) e.cascadeLayer

/-- A call to the accessor method `getThemeStyles` on an engine instance:
every engine field is `readonly` and the method body only reads them, so the
engine after the call is the engine before it. -/
def getThemeStylesCall (ext : Externals) (e : Engine) : Except String String × Engine :=
  (getThemeStyles ext e, e)

/-- `getJsModules` (lines 488-498): collect the plugins' JS modules, trim
each, drop empty ones and deduplicate, keeping first-insertion order. -/
def getJsModules (e : Engine) : List String :=
  ((e.plugins.flatMap fun plugin => plugin.jsModules.map (fun m => m.trim)).filter
      (fun m => m ≠ "")).eraseDups

/-! Concrete fixtures used to evaluate the theorems on explicit inputs. -/

/-- A concrete `Externals` instance: identity CSS processing, empty core
styles, color-preserving contrast pass, one empty style variant per theme. -/
def identityExternals : Externals :=
  { scopeAndMinifyNestedCss := fun s => s
    processPluginStyles := fun l => l.map PluginStyles.styles
    getCoreThemeStyles := fun _ => ""
    getCoreBaseStyles := fun _ _ _ => ""
    resolveCodeBackground := fun _ _ _ _ => none
    ensureMinContrastColors := fun theme _ _ => theme.colors
    resolveStyleVariants := fun themes _ _ => themes.map (fun t => { theme := t, cssVarDeclarations := [] })
    corePlugins := [] }

/-- A concrete dark theme. -/
def darkTheme1 : Theme := { name := "dark1", type := ThemeType.dark, colors := [] }

/-- A second concrete dark theme. -/
def darkTheme2 : Theme := { name := "dark2", type := ThemeType.dark, colors := [] }

/-- A concrete light theme. -/
def lightTheme1 : Theme := { name := "light1", type := ThemeType.light, colors := [] }

/-- A concrete engine built directly from a style variant list and the
options the emission pipeline reads. -/
def testEngine (svs : List StyleVariant) (useDark : Bool)
    (sel : Option (Theme → List StyleVariant → Option String)) (layer : String) : Engine :=
  { themes := svs.map StyleVariant.theme
    minSyntaxHighlightingColorContrast := 5.5
    useDarkModeMediaQuery := useDark
    themeCssRoot := ":root"
    themeCssSelector := sel
    cascadeLayer := layer
    useStyleReset := true
    useThemedScrollbars := true
    useThemedSelectionColors := false
    styleOverrides := []
    styleVariants := svs
    defaultLocale := "en-US"
    plugins := [] }

/-- Engine with two dark themes and the dark-mode media query enabled. -/
def engineDarkDark : Engine :=
  testEngine [{ theme := darkTheme1, cssVarDeclarations := [] },
    { theme := darkTheme2, cssVarDeclarations := [] }] true (some defaultThemeCssSelector) ""

/-- Engine with a dark base theme and a light alternate theme, no cascade
layer. -/
def engineNoLayer : Engine :=
  testEngine [{ theme := darkTheme1, cssVarDeclarations := [] },
    { theme := lightTheme1, cssVarDeclarations := [] }] true (some defaultThemeCssSelector) ""

/-- Engine with the cascade layer set to `ec`. -/
def engineLayerEc : Engine :=
  testEngine [{ theme := darkTheme1, cssVarDeclarations := [] },
    { theme := lightTheme1, cssVarDeclarations := [] }] true (some defaultThemeCssSelector) "ec"

/-- Engine with `themeCssSelector` resolved to `false` and the media query
disabled. -/
def engineNoSelector : Engine :=
  testEngine [{ theme := darkTheme1, cssVarDeclarations := [] },
    { theme := lightTheme1, cssVarDeclarations := [] }] false none ""

/-- Configuration supplying only the deprecated `theme` option. -/
def configDeprecatedTheme : EngineConfig := { theme := some darkTheme1 }

/-- Configuration with one dark and one light theme and everything else
defaulted. -/
def configDarkLight : EngineConfig := { themes := some [darkTheme1, lightTheme1] }

/-- Configuration with the contrast pass explicitly disabled. -/
def configContrastZero : EngineConfig := { minSyntaxHighlightingColorContrast := some 0 }

/-- The empty configuration. -/
def configEmpty : EngineConfig := {}

/-! Helper lemmas. -/

theorem joinSep_cons_cons (sep s b : String) (rs : List String) :
    joinSep sep (s :: b :: rs) = s ++ sep ++ joinSep sep (b :: rs) := rfl

/-- Any member of a joined list occurs verbatim inside the joined string. -/
theorem joinSep_mem_split (sep : String) (l : List String) (x : String) (hx : x ∈ l) :
    ∃ pre post : String, joinSep sep l = pre ++ x ++ post := by
  induction l with
  | nil => cases hx
  | cons a rest ih =>
    rcases List.mem_cons.mp hx with h | h
    · subst h
      cases rest with
      | nil => exact ⟨"", "", by simp [joinSep]⟩
      | cons b rs =>
        exact ⟨"", sep ++ joinSep sep (b :: rs), by
          simp [joinSep_cons_cons, String.append_assoc]⟩
    · obtain ⟨pre, post, hp⟩ := ih h
      cases rest with
      | nil => cases h
      | cons b rs =>
        refine ⟨a ++ sep ++ pre, post, ?_⟩
        simp [joinSep_cons_cons, hp, String.append_assoc]

/-- The media-query configuration error message contains every configured
theme's `name (type)` pair verbatim. -/
theorem mediaQueryErrorMessage_names_all (themes : List Theme) (t : Theme) (ht : t ∈ themes) :
    ∃ pre post : String,
      mediaQueryErrorMessage themes = pre ++ (t.name ++ " (" ++ themeTypeStr t.type ++ ")") ++ post := by
  obtain ⟨pre, post, hp⟩ :=
    joinSep_mem_split ", " (themes.map (fun theme => theme.name ++ " (" ++ themeTypeStr theme.type ++ ")"))
      (t.name ++ " (" ++ themeTypeStr t.type ++ ")")
      (List.mem_map_of_mem _ ht)
  refine ⟨"The config option \"useDarkModeMediaQuery: true\" requires at least" ++ " " ++
    ("one dark and one light theme, but the following themes were given:" ++ " " ++ pre), post, ?_⟩
  have hmsg : mediaQueryErrorMessage themes =
      "The config option \"useDarkModeMediaQuery: true\" requires at least" ++ " " ++
        ("one dark and one light theme, but the following themes were given:" ++ " " ++
          joinSep ", "
            (themes.map (fun theme => theme.name ++ " (" ++ themeTypeStr theme.type ++ ")"))) := rfl
  rw [hmsg, hp]
  simp [String.append_assoc]

/-- `mkAlternateVariants` keeps the alternate variants' themes, in order. -/
theorem mkAlternateVariants_map_theme (ext : Externals) (bv : List (String × String)) :
    ∀ (i : Nat) (alts : List StyleVariant),
      (mkAlternateVariants ext bv i alts).map AltVariant.theme = alts.map StyleVariant.theme := by
  intro i alts
  induction alts generalizing i with
  | nil => rfl
  | cons sv rest ih => simp [mkAlternateVariants, ih]

/-- With a non-positive contrast setting, the theme-processing loop reduces
to the `customizeTheme` step. -/
theorem processThemes_of_nonpos (ext : Externals) (c : Option (Theme → Option Theme))
    (q : ℚ) (hq : ¬ 0 < q) (pl : List Plugin) (so : StyleOverrides) :
    ∀ (i : Nat) (l : List Theme),
      processThemes ext c q pl so i l = l.map (applyCustomizeTheme c) := by
  intro i l
  induction l generalizing i with
  | nil => rfl
  | cons t rest ih => simp [processThemes, processTheme, hq, ih]

/-- The theme-processing loop preserves the number of themes. -/
theorem processThemes_length (ext : Externals) (c : Option (Theme → Option Theme))
    (q : ℚ) (pl : List Plugin) (so : StyleOverrides) :
    ∀ (i : Nat) (l : List Theme), (processThemes ext c q pl so i l).length = l.length := by
  intro i l
  induction l generalizing i with
  | nil => rfl
  | cons t rest ih => simp [processThemes, ih]

/-- Without a `customizeTheme` callback, the theme-processing loop preserves
every theme's name and type (the contrast pass rewrites only colors). -/
theorem processThemes_name_type (ext : Externals) (q : ℚ) (pl : List Plugin) (so : StyleOverrides) :
    ∀ (i : Nat) (l : List Theme),
      (processThemes ext none q pl so i l).map (fun t => (t.name, t.type)) =
        l.map (fun t => (t.name, t.type)) := by
  intro i l
  induction l generalizing i with
  | nil => rfl
  | cons t rest ih =>
    by_cases hq : 0 < q <;>
      simp [processThemes, processTheme, applyCustomizeTheme, hq, ih]

/-- `Map.get` returns the value stored under a present key when the keys are
unique. -/
theorem mapGet_of_mem_nodup : ∀ (vars : List (String × String)),
    (vars.map Prod.fst).Nodup → ∀ (n v : String), (n, v) ∈ vars → mapGet vars n = some v := by
  intro vars
  induction vars with
  | nil => intro _ n v h; cases h
  | cons p rest ih =>
    intro hnd n v hmem
    rw [List.map_cons, List.nodup_cons] at hnd
    rcases List.mem_cons.mp hmem with h | h
    · cases h
      simp [mapGet, List.find?]
    · have hne : ¬ p.1 = n := by
        intro he
        exact hnd.1 (he ▸ List.mem_map_of_mem Prod.fst h)
      have hb : (p.1 == n) = false := by
        rw [beq_eq_false_iff_ne]; exact hne
      have hstep : mapGet (p :: rest) n = mapGet rest n := by
        simp [mapGet, List.find?, hb]
      rw [hstep]
      exact ih hnd.2 n v h

/-- Field preservation of the deprecated-option migration: it touches only
`theme` and `themes`. -/
theorem migrateConfig_fields (config : EngineConfig) :
    (migrateConfig config).minSyntaxHighlightingColorContrast = config.minSyntaxHighlightingColorContrast ∧
    (migrateConfig config).useDarkModeMediaQuery = config.useDarkModeMediaQuery ∧
    (migrateConfig config).customizeTheme = config.customizeTheme ∧
    (migrateConfig config).styleOverrides = config.styleOverrides ∧
    (migrateConfig config).plugins = config.plugins := by
  unfold migrateConfig
  rcases h1 : config.theme <;> rcases h2 : config.themes <;> simp

/-- The engine's resolved theme list as computed by the constructor. -/
theorem mkEngine_themes (ext : Externals) (config : EngineConfig) :
    (mkEngine ext config).engine.themes =
      processThemes ext (migrateConfig config).customizeTheme
        ((migrateConfig config).minSyntaxHighlightingColorContrast.getD 5.5)
        (ext.corePlugins ++ (migrateConfig config).plugins)
        ((migrateConfig config).styleOverrides.getD []) 0 (resolveThemes config) := rfl

/-- The engine's resolved `useDarkModeMediaQuery` as computed by the
constructor. -/
theorem mkEngine_useDarkModeMediaQuery (ext : Externals) (config : EngineConfig) :
    (mkEngine ext config).engine.useDarkModeMediaQuery =
      ((migrateConfig config).useDarkModeMediaQuery).getD
        (autoDarkModeDefault (resolveThemes config)) := rfl

/-- The engine's resolved minimum contrast as computed by the constructor. -/
theorem mkEngine_minContrast (ext : Externals) (config : EngineConfig) :
    (mkEngine ext config).engine.minSyntaxHighlightingColorContrast =
      ((migrateConfig config).minSyntaxHighlightingColorContrast).getD 5.5 := rfl

/-- The auto-default for `useDarkModeMediaQuery` holds exactly for a
two-theme list with differing types. -/
theorem autoDarkModeDefault_iff (themes : List Theme) :
    autoDarkModeDefault themes = true ↔
      ∃ t0 t1 : Theme, themes = [t0, t1] ∧ t0.type ≠ t1.type := by
  match themes with
  | [] => simp [autoDarkModeDefault]
  | [t] => simp [autoDarkModeDefault]
  | [t0, t1] =>
    simp [autoDarkModeDefault, bne_iff_ne]
    constructor
    · intro h
      exact ⟨t0, t1, ⟨rfl, rfl⟩, h⟩
    · rintro ⟨a, b, ⟨ha, hb⟩, h⟩
      subst ha
      subst hb
      exact h
  | t0 :: t1 :: t2 :: rest => simp [autoDarkModeDefault]

/-- The theme list resolved from a configuration ignores the
`customizeTheme` option. -/
theorem resolveThemes_update_customize (config : EngineConfig) (f : Option (Theme → Option Theme)) :
    resolveThemes { config with customizeTheme := f } = resolveThemes config := by
  rcases h1 : config.theme <;> rcases h2 : config.themes <;>
    simp [resolveThemes, migrateConfig, h1, h2]

/-- The deprecated-option migration commutes with updating `customizeTheme`. -/
theorem migrateConfig_update_customize (config : EngineConfig) (f : Option (Theme → Option Theme)) :
    migrateConfig { config with customizeTheme := f } =
      { migrateConfig config with customizeTheme := f } := by
  rcases h1 : config.theme <;> rcases h2 : config.themes <;>
    simp [migrateConfig, h1, h2]

/-! Claim theorems. -/

/-- C2: for every alternate style variant, the diff mapping computed by
`getThemeStyles` contains exactly those CSS variable declarations whose value
differs from the base variant's value for the same name under string-exact
comparison; in particular, an alternate variant whose declarations equal the
base variant's in every key yields a diff with zero variable declarations and
an empty rendered declaration block. -/
theorem diff_mapping_exact (baseVars vars : List (String × String)) :
    (∀ n v : String, (n, v) ∈ computeDiffVars baseVars vars ↔
        ((n, v) ∈ vars ∧ mapGet baseVars n ≠ some v))
    ∧ ((vars.map Prod.fst).Nodup →
        (∀ n : String, mapGet vars n = mapGet baseVars n) →
        computeDiffVars baseVars vars = [] ∧
          renderDeclarations (computeDiffVars baseVars vars) = "") := by
  constructor
  · intro n v
    simp [computeDiffVars, List.mem_filter]
  · intro hnd heq
    have hz : computeDiffVars baseVars vars = [] := by
      rw [computeDiffVars, List.filter_eq_nil_iff]
      intro p hp
      have hv : mapGet vars p.1 = some p.2 := mapGet_of_mem_nodup vars hnd p.1 p.2 hp
      simp [bne_iff_ne]
      rw [← heq p.1]
      exact hv
    exact ⟨hz, by rw [hz]; rfl⟩

/-- C2 witness: a concrete alternate variant identical to the base variant
yields an empty diff. -/
theorem diff_mapping_exact_witness :
    computeDiffVars [("--ec-codeBg", "#000")] [("--ec-codeBg", "#000")] = [] :=
  ((diff_mapping_exact [("--ec-codeBg", "#000")] [("--ec-codeBg", "#000")]).2
    (by decide) (fun _ => rfl)).1

/-- C3: when the resolved `cascadeLayer` is the empty string, `getBaseStyles`
and `getThemeStyles` return the concatenated generated CSS unchanged; when it
is a non-empty string, each returned string is the generated CSS wrapped
exactly once in a named `@layer` rule. -/
theorem cascadeLayer_wrapping (ext : Externals) (e : Engine) :
    (e.cascadeLayer = "" →
      getBaseStyles ext e = joinSep "" (ext.processPluginStyles (basePluginStyles ext e)) ∧
      ∀ blocks : List String, getThemeStylesBlocks ext e = Except.ok blocks →
        getThemeStyles ext e = Except.ok (joinSep "" blocks))
    ∧ (e.cascadeLayer ≠ "" →
      getBaseStyles ext e =
        "@layer " ++ e.cascadeLayer ++ " " ++ obr ++ " " ++
          joinSep "" (ext.processPluginStyles (basePluginStyles ext e)) ++ " " ++ cbr ∧
      ∀ blocks : List String, getThemeStylesBlocks ext e = Except.ok blocks →
        getThemeStyles ext e =
          Except.ok ("@layer " ++ e.cascadeLayer ++ " " ++ obr ++ " " ++
            joinSep "" blocks ++ " " ++ cbr)) := by
  constructor
  · intro h
    constructor
    · simp [getBaseStyles, wrapInCascadeLayer, h]
    · intro blocks hb
      simp [getThemeStyles, hb, wrapInCascadeLayer, h]
  · intro h
    constructor
    · simp [getBaseStyles, wrapInCascadeLayer, h]
    · intro blocks hb
      simp [getThemeStyles, hb, wrapInCascadeLayer, h]

/-- C3 witness: a concrete engine with cascade layer `ec` is wrapped exactly
once, and a concrete engine with the empty layer is returned unchanged. -/
theorem cascadeLayer_wrapping_witness :
    getBaseStyles identityExternals engineLayerEc =
      "@layer " ++ engineLayerEc.cascadeLayer ++ " " ++ obr ++ " " ++
        joinSep "" (identityExternals.processPluginStyles
          (basePluginStyles identityExternals engineLayerEc)) ++ " " ++ cbr
    ∧ getBaseStyles identityExternals engineNoLayer =
        joinSep "" (identityExternals.processPluginStyles
          (basePluginStyles identityExternals engineNoLayer)) :=
  ⟨((cascadeLayer_wrapping identityExternals engineLayerEc).2 (by decide)).1,
   ((cascadeLayer_wrapping identityExternals engineNoLayer).1 rfl).1⟩

/-- C8: with unchanged configuration, a call to `getThemeStyles` leaves the
engine unchanged, and a second call returns a byte-identical result. -/
theorem getThemeStyles_idempotent (ext : Externals) (e : Engine) :
    (getThemeStylesCall ext e).2 = e ∧
    (getThemeStylesCall ext ((getThemeStylesCall ext e).2)).1 = (getThemeStylesCall ext e).1 :=
  ⟨rfl, rfl⟩

/-- C9: supplying the deprecated `theme` option without `themes` makes the
constructor mutate the caller's configuration object in place: `themes`
receives the migrated one-element list, the `theme` property is deleted, and
every other property is untouched. -/
theorem constructor_mutates_caller_config (ext : Externals) (config : EngineConfig) (t : Theme)
    (h1 : config.theme = some t) (h2 : config.themes = none) :
    (mkEngine ext config).finalConfig = { config with themes := some [t], theme := none } := by
  have hm : migrateConfig config = { config with themes := some [t], theme := none } := by
    simp [migrateConfig, h1, h2]
  exact hm

/-- C9 witness: the migration observed on a concrete configuration. -/
theorem constructor_mutates_caller_config_witness :
    (mkEngine identityExternals configDeprecatedTheme).finalConfig =
      { configDeprecatedTheme with themes := some [darkTheme1], theme := none } :=
  constructor_mutates_caller_config identityExternals configDeprecatedTheme darkTheme1 rfl rfl

/-- C4: when `useDarkModeMediaQuery` is not explicitly set, the resolved
value is true if and only if the resolved theme list has exactly two themes
and their types differ. -/
theorem useDarkModeMediaQuery_auto (ext : Externals) (config : EngineConfig)
    (h : config.useDarkModeMediaQuery = none) :
    ((mkEngine ext config).engine.useDarkModeMediaQuery = true ↔
      ∃ t0 t1 : Theme, resolveThemes config = [t0, t1] ∧ t0.type ≠ t1.type) := by
  rw [mkEngine_useDarkModeMediaQuery, (migrateConfig_fields config).2.1, h]
  simpa using autoDarkModeDefault_iff (resolveThemes config)

/-- C4 witness: one dark plus one light theme auto-enables the media
query. -/
theorem useDarkModeMediaQuery_auto_witness :
    (mkEngine identityExternals configDarkLight).engine.useDarkModeMediaQuery = true :=
  (useDarkModeMediaQuery_auto identityExternals configDarkLight rfl).mpr
    ⟨darkTheme1, lightTheme1, rfl, by decide⟩

/-- C5: a configuration with `minSyntaxHighlightingColorContrast` set to a
value ≤ 0 skips the contrast pass entirely — the engine's theme list does not
depend on the contrast-adjustment externals and equals the customize-only
result, so no theme's colors are mutated — and when the option is omitted the
resolved value is 5.5. -/
theorem contrast_pass_disabled (ext : Externals) (config : EngineConfig) (q : ℚ) :
    (config.minSyntaxHighlightingColorContrast = some q → q ≤ 0 →
      (∀ (f g : Theme → ℚ → Option String → List (String × String))
          (rc rc' : Theme → Nat → List Plugin → StyleOverrides → Option String),
        (mkEngine { ext with ensureMinContrastColors := f, resolveCodeBackground := rc }
            config).engine.themes =
          (mkEngine { ext with ensureMinContrastColors := g, resolveCodeBackground := rc' }
            config).engine.themes)
      ∧ (mkEngine ext config).engine.themes =
          (resolveThemes config).map (applyCustomizeTheme config.customizeTheme))
    ∧ (config.minSyntaxHighlightingColorContrast = none →
        (mkEngine ext config).engine.minSyntaxHighlightingColorContrast = 5.5) := by
  constructor
  · intro hq hle
    have hnp : ¬ (0 : ℚ) < q := not_lt.mpr hle
    have key : ∀ ext' : Externals,
        (mkEngine ext' config).engine.themes =
          (resolveThemes config).map (applyCustomizeTheme config.customizeTheme) := by
      intro ext'
      rw [mkEngine_themes, (migrateConfig_fields config).1, hq, Option.getD_some,
        (migrateConfig_fields config).2.2.1]
      exact processThemes_of_nonpos ext' config.customizeTheme q hnp _ _ 0 (resolveThemes config)
    exact ⟨fun f g rc rc' => (key _).trans (key _).symm, key ext⟩
  · intro hn
    rw [mkEngine_minContrast, (migrateConfig_fields config).1, hn]
    rfl

/-- C5 witness: with the contrast option set to 0, two radically different
contrast-adjustment externals produce the same engine themes; with the option
omitted, the resolved value is 5.5. -/
theorem contrast_pass_disabled_witness :
    (mkEngine { identityExternals with
        ensureMinContrastColors := fun _ _ _ => [("k", "v")]
        resolveCodeBackground := fun _ _ _ _ => some "#fff" } configContrastZero).engine.themes =
      (mkEngine { identityExternals with
        ensureMinContrastColors := fun theme _ _ => theme.colors
        resolveCodeBackground := fun _ _ _ _ => none } configContrastZero).engine.themes
    ∧ (mkEngine identityExternals configEmpty).engine.minSyntaxHighlightingColorContrast = 5.5 :=
  ⟨((contrast_pass_disabled identityExternals configContrastZero 0).1 rfl (le_refl 0)).1 _ _ _ _,
   (contrast_pass_disabled identityExternals configEmpty 0).2 rfl⟩

/-- C6: a configuration supplying the deprecated `theme` option and no
`themes` option resolves to a one-element theme list containing exactly the
supplied theme, with no diagnostic emitted during construction; the
constructed engine's theme list has length one and (absent a `customizeTheme`
callback) its single element keeps the supplied theme's name and type. -/
theorem deprecated_theme_migration (ext : Externals) (config : EngineConfig) (t : Theme)
    (h1 : config.theme = some t) (h2 : config.themes = none) :
    resolveThemes config = [t]
    ∧ (mkEngine ext config).engine.themes.length = 1
    ∧ (mkEngine ext config).diagnostics = []
    ∧ (config.customizeTheme = none →
        (mkEngine ext config).engine.themes.map (fun th => (th.name, th.type)) =
          [(t.name, t.type)]) := by
  have hres : resolveThemes config = [t] := by
    simp [resolveThemes, migrateConfig, h1, h2]
  refine ⟨hres, ?_, rfl, ?_⟩
  · rw [mkEngine_themes, processThemes_length, hres]
    rfl
  · intro hc
    rw [mkEngine_themes, (migrateConfig_fields config).2.2.1, hc, processThemes_name_type, hres]
    rfl

/-- C6 witness: the migration observed end to end on a concrete
configuration. -/
theorem deprecated_theme_migration_witness :
    resolveThemes configDeprecatedTheme = [darkTheme1]
    ∧ (mkEngine identityExternals configDeprecatedTheme).engine.themes.length = 1
    ∧ (mkEngine identityExternals configDeprecatedTheme).diagnostics = []
    ∧ (mkEngine identityExternals configDeprecatedTheme).engine.themes.map
        (fun th => (th.name, th.type)) = [(darkTheme1.name, darkTheme1.type)] := by
  have h := deprecated_theme_migration identityExternals configDeprecatedTheme darkTheme1 rfl rfl
  exact ⟨h.1, h.2.1, h.2.2.1, h.2.2.2 rfl⟩

/-- C10: when `useDarkModeMediaQuery` is omitted, its auto-default is
computed from the theme list resolved from the configuration before
`customizeTheme` runs, so a theme-replacing or type-changing callback has no
effect on whether the media query is enabled. -/
theorem auto_default_ignores_customizeTheme (ext : Externals) (config : EngineConfig)
    (f g : Option (Theme → Option Theme))
    (h : config.useDarkModeMediaQuery = none) :
    (mkEngine ext { config with customizeTheme := f }).engine.useDarkModeMediaQuery =
      (mkEngine ext { config with customizeTheme := g }).engine.useDarkModeMediaQuery
    ∧ (mkEngine ext config).engine.useDarkModeMediaQuery =
        autoDarkModeDefault (resolveThemes config) := by
  have key : ∀ c : Option (Theme → Option Theme),
      (mkEngine ext { config with customizeTheme := c }).engine.useDarkModeMediaQuery =
        autoDarkModeDefault (resolveThemes config) := by
    intro c
    rw [mkEngine_useDarkModeMediaQuery, migrateConfig_update_customize,
      resolveThemes_update_customize]
    show ((migrateConfig config).useDarkModeMediaQuery).getD _ = _
    rw [(migrateConfig_fields config).2.1, h]
    rfl
  refine ⟨(key f).trans (key g).symm, ?_⟩
  rw [mkEngine_useDarkModeMediaQuery, (migrateConfig_fields config).2.1, h]
  rfl

/-- C10 witness: a callback that replaces the light theme with a second dark
theme does not change the resolved media-query flag. -/
theorem auto_default_ignores_customizeTheme_witness :
    (mkEngine identityExternals
        { configDarkLight with
          customizeTheme := some (fun _ => some darkTheme2) }).engine.useDarkModeMediaQuery =
      (mkEngine identityExternals
        { configDarkLight with customizeTheme := none }).engine.useDarkModeMediaQuery
    ∧ (mkEngine identityExternals configDarkLight).engine.useDarkModeMediaQuery =
        autoDarkModeDefault (resolveThemes configDarkLight) :=
  auto_default_ignores_customizeTheme identityExternals configDarkLight
    (some (fun _ => some darkTheme2)) none rfl

/-- C1: for an engine whose resolved `useDarkModeMediaQuery` is true,
`getThemeStyles` throws if and only if no alternate style variant
(`styleVariantIndex ≥ 1`) has a theme type opposite to the base theme's type,
and the thrown error is the configuration error whose message names the name
and type of every configured theme. -/
theorem darkMode_mediaQuery_error_iff (ext : Externals) (e : Engine)
    (base : StyleVariant) (alts : List StyleVariant)
    (hsv : e.styleVariants = base :: alts)
    (hdm : e.useDarkModeMediaQuery = true) :
    ((∃ msg, getThemeStyles ext e = Except.error msg) ↔
      ∀ sv ∈ alts, sv.theme.type ≠ oppositeType base.theme.type)
    ∧ (∀ msg, getThemeStyles ext e = Except.error msg →
        msg = mediaQueryErrorMessage e.themes ∧
        ∀ t ∈ e.themes, ∃ pre post : String,
          msg = pre ++ (t.name ++ " (" ++ themeTypeStr t.type ++ ")") ++ post) := by
  have hthememap :
      (mkAlternateVariants ext base.cssVarDeclarations 1 alts).map AltVariant.theme =
        alts.map StyleVariant.theme :=
    mkAlternateVariants_map_theme ext base.cssVarDeclarations 1 alts
  rcases hfind : (mkAlternateVariants ext base.cssVarDeclarations 1 alts).find?
      (fun v => v.theme.type == oppositeType base.theme.type) with _ | fav
  · have hg : getThemeStyles ext e = Except.error (mediaQueryErrorMessage e.themes) := by
      simp [getThemeStyles, getThemeStylesBlocks, hsv, themeStylesCore, mediaBlockResult,
        hdm, hfind]
    refine ⟨⟨fun _ => ?_, fun _ => ⟨_, hg⟩⟩, ?_⟩
    · intro sv hsvmem he
      have hmem : sv.theme ∈
          (mkAlternateVariants ext base.cssVarDeclarations 1 alts).map AltVariant.theme := by
        rw [hthememap]
        exact List.mem_map_of_mem StyleVariant.theme hsvmem
      obtain ⟨v, hv, hveq⟩ := List.mem_map.mp hmem
      apply List.find?_eq_none.mp hfind v hv
      rw [beq_iff_eq, hveq, he]
    · intro msg hmsg
      rw [hg] at hmsg
      injection hmsg with hmm
      subst hmm
      exact ⟨rfl, fun t ht => mediaQueryErrorMessage_names_all e.themes t ht⟩
  · have hblocks : getThemeStylesBlocks ext e =
        Except.ok (emittedBaseBlock ext e base ::
          (ext.scopeAndMinifyNestedCss
              (darkModeMediaQueryCssText e base (oppositeType base.theme.type) fav) ::
            perThemeBlocksOf ext e base alts)) := by
      simp [getThemeStylesBlocks, hsv, themeStylesCore, mediaBlockResult, hdm, hfind]
    have hgs : getThemeStyles ext e = Except.ok (wrapInCascadeLayer (joinSep ""
        (emittedBaseBlock ext e base ::
          (ext.scopeAndMinifyNestedCss
              (darkModeMediaQueryCssText e base (oppositeType base.theme.type) fav) ::
            perThemeBlocksOf ext e base alts))) e.cascadeLayer) := by
      simp [getThemeStyles, hblocks]
    constructor
    · constructor
      · rintro ⟨msg, hmsg⟩
        rw [hgs] at hmsg
        exact Except.noConfusion hmsg
      · intro hall
        exfalso
        have hfmem := List.mem_of_find?_eq_some hfind
        have hfpred := List.find?_some hfind
        have hmem : fav.theme ∈ alts.map StyleVariant.theme := by
          rw [← hthememap]
          exact List.mem_map_of_mem AltVariant.theme hfmem
        obtain ⟨sv, hsvmem, hsveq⟩ := List.mem_map.mp hmem
        exact hall sv hsvmem (by rw [hsveq]; exact beq_iff_eq.mp hfpred)
    · intro msg hmsg
      rw [hgs] at hmsg
      exact Except.noConfusion hmsg

/-- C1 witness: two dark themes with the media query enabled make
`getThemeStyles` throw. -/
theorem darkMode_mediaQuery_error_iff_witness :
    ∃ msg, getThemeStyles identityExternals engineDarkDark = Except.error msg :=
  (darkMode_mediaQuery_error_iff identityExternals engineDarkDark
      { theme := darkTheme1, cssVarDeclarations := [] }
      [{ theme := darkTheme2, cssVarDeclarations := [] }] rfl rfl).1.mpr
    (by decide)

/-- C7: with `themeCssSelector` resolved to `false`, `getThemeStyles` emits
no per-theme selector blocks, while the base block is still emitted and, when
`useDarkModeMediaQuery` is enabled, so is the `prefers-color-scheme`
media-query block. -/
theorem themeCssSelector_false_blocks (ext : Externals) (e : Engine)
    (base : StyleVariant) (alts : List StyleVariant)
    (hsv : e.styleVariants = base :: alts)
    (hsel : e.themeCssSelector = none) :
    perThemeBlocksOf ext e base alts = []
    ∧ (e.useDarkModeMediaQuery = false →
        getThemeStylesBlocks ext e = Except.ok [emittedBaseBlock ext e base])
    ∧ (e.useDarkModeMediaQuery = true →
        ∀ blocks : List String, getThemeStylesBlocks ext e = Except.ok blocks →
          ∃ fav : AltVariant,
            (mkAlternateVariants ext base.cssVarDeclarations 1 alts).find?
                (fun v => v.theme.type == oppositeType base.theme.type) = some fav ∧
            blocks = [emittedBaseBlock ext e base,
              ext.scopeAndMinifyNestedCss
                (darkModeMediaQueryCssText e base (oppositeType base.theme.type) fav)]) := by
  have hper : perThemeBlocksOf ext e base alts = [] := by
    simp [perThemeBlocksOf, hsel]
  refine ⟨hper, ?_, ?_⟩
  · intro hdm
    simp [getThemeStylesBlocks, hsv, themeStylesCore, mediaBlockResult, hdm, hper]
  · intro hdm blocks hb
    rcases hfind : (mkAlternateVariants ext base.cssVarDeclarations 1 alts).find?
        (fun v => v.theme.type == oppositeType base.theme.type) with _ | fav
    · have herr : getThemeStylesBlocks ext e =
          Except.error (mediaQueryErrorMessage e.themes) := by
        simp [getThemeStylesBlocks, hsv, themeStylesCore, mediaBlockResult, hdm, hfind]
      rw [herr] at hb
      exact Except.noConfusion hb
    · have hok : getThemeStylesBlocks ext e = Except.ok [emittedBaseBlock ext e base,
          ext.scopeAndMinifyNestedCss
            (darkModeMediaQueryCssText e base (oppositeType base.theme.type) fav)] := by
        simp [getThemeStylesBlocks, hsv, themeStylesCore, mediaBlockResult, hdm, hfind, hper]
      rw [hok] at hb
      injection hb with hbb
      exact ⟨fav, hfind, hbb.symm⟩

/-- C7 witness: a concrete engine with the selector disabled and the media
query off emits only the base block. -/
theorem themeCssSelector_false_blocks_witness :
    getThemeStylesBlocks identityExternals engineNoSelector =
      Except.ok [emittedBaseBlock identityExternals engineNoSelector
        { theme := darkTheme1, cssVarDeclarations := [] }] :=
  (themeCssSelector_false_blocks identityExternals engineNoSelector
      { theme := darkTheme1, cssVarDeclarations := [] }
      [{ theme := lightTheme1, cssVarDeclarations := [] }] rfl rfl).2.1 rfl

end ExpressiveCode
